import Mathlib

/-!
Verification of the astra-link-validator automation scripts.

Each Python source file is shallow-embedded as pure Lean functions.
Remote HTTP interaction is modelled by explicit outcome parameters
(response status codes, headers, raised network errors), and each
script's observable behaviour (exit code, printed lines, the trace of
requests it issues, the sleeps it performs) is returned as data, so
that the theorems below can speak about it directly.

Embedded sources:
  * scripts/astra_notion_init.py       (namespace `AstraInit`)
  * scripts/quiet_validator.py         (namespace `QuietValidator`)
  * .github/workflows/scripts/quiet_validator.py (also `QuietValidator`)
  * automation-utilities/upsert_secrets_and_dispatch.py (namespace `Upsert`)
-/

/-- Python truthiness of an optional string environment value, as used in
`if not token`-style guards: `os.getenv` returns `None` when the variable
is unset, and both `None` and the empty string are falsy. -/
def truthy : Option String → Bool
  | none => false
  | some s => s != ""

namespace AstraInit

/-- The Retry-After header of a response, as consumed by
`notion_request_with_backoff` (astra_notion_init.py lines 67-72):
either the header is absent (`resp.headers.get` returns a falsy value,
which also covers an empty header string), or it is present but
`float(retry_after)` raises, or it parses to the numeric value `q`. -/
inductive RetryAfterHeader
  | absent
  | unparseable
  | value (q : ℚ)
deriving DecidableEq

/-- The outcome of one `requests.request` call (line 64): a response
carrying its status code and Retry-After header, or a raised
`requests.ConnectionError` / `requests.Timeout`. -/
inductive Outcome
  | resp (status : Nat) (retryAfter : RetryAfterHeader)
  | connError
  | timeout
deriving DecidableEq

/-- `MAX_ATTEMPTS = 6` (astra_notion_init.py line 29). -/
def MAX_ATTEMPTS : Nat := 6

/-- `BACKOFF_BASE = 1.0` (line 30). -/
def BACKOFF_BASE : ℚ := 1

/-- `resp.status_code in (429, 500, 502, 503, 504)` (line 65). -/
def transientStatus (status : Nat) : Bool :=
  status == 429 || status == 500 || status == 502 || status == 503 || status == 504

/-- `BACKOFF_BASE * (2 ** (attempt - 1))` (lines 72, 74 and 85). -/
def expBackoff (attempt : Nat) : ℚ := BACKOFF_BASE * 2 ^ (attempt - 1)

/-- `if sleep > 10: sleep = 10` (lines 75-76 and 86-87). -/
def capSleep (s : ℚ) : ℚ := if s > 10 then 10 else s

/-- The sleep chosen for a transient response (lines 67-76): a parseable
Retry-After value is used as is, otherwise exponential backoff; the
result is capped at 10 seconds. -/
def respSleep (attempt : Nat) (h : RetryAfterHeader) : ℚ :=
  capSleep (match h with
    | .value q => q
    | _ => expBackoff attempt)

/-- How one call of `notion_request_with_backoff` ends: it returns a
response, or raises `requests.HTTPError` via `resp.raise_for_status()`
on the last transient response (line 78; every transient status is an
error status, so `raise_for_status` raises), or re-raises the last
connection / timeout error (line 84). -/
inductive ReqResult
  | ok (status : Nat) (retryAfter : RetryAfterHeader)
  | httpError (status : Nat)
  | connException
  | timeoutException
deriving DecidableEq

/-- The observable behaviour of one call to the wrapper: how it ended,
how many HTTP requests it issued, and the sleeps it performed (in
seconds, in order). -/
structure RunTrace where
  result : ReqResult
  requests : Nat
  sleeps : List ℚ
deriving DecidableEq

/-- The `while True` loop of `notion_request_with_backoff` (lines
60-88), with the outcome of the i-th request given by `outcomes i`
(the loop body for attempt `i` sees outcome `outcomes i`).  `fuel`
bounds the structural recursion; the wrapper always supplies enough
fuel (`MAX_ATTEMPTS`) that the fuel-exhausted fallbacks, which repeat
the attempt-ceiling branches, are unreachable: the loop leaves via the
ceiling check `attempt >= MAX_ATTEMPTS` first. -/
def backoffGo (outcomes : Nat → Outcome) : Nat → Nat → RunTrace
  | attempt, 0 =>
    match outcomes attempt with
    | .resp st ra =>
      if transientStatus st then { result := .httpError st, requests := 1, sleeps := [] }
      else { result := .ok st ra, requests := 1, sleeps := [] }
    | .connError => { result := .connException, requests := 1, sleeps := [] }
    | .timeout => { result := .timeoutException, requests := 1, sleeps := [] }
  | attempt, f + 1 =>
    match outcomes attempt with
    | .resp st ra =>
      if transientStatus st then
        if MAX_ATTEMPTS ≤ attempt then
          { result := .httpError st, requests := 1, sleeps := [] }
        else
          let rest := backoffGo outcomes (attempt + 1) f
          { result := rest.result, requests := rest.requests + 1,
            sleeps := respSleep attempt ra :: rest.sleeps }
      else
        { result := .ok st ra, requests := 1, sleeps := [] }
    | .connError =>
      if MAX_ATTEMPTS ≤ attempt then
        { result := .connException, requests := 1, sleeps := [] }
      else
        let rest := backoffGo outcomes (attempt + 1) f
        { result := rest.result, requests := rest.requests + 1,
          sleeps := capSleep (expBackoff attempt) :: rest.sleeps }
    | .timeout =>
      if MAX_ATTEMPTS ≤ attempt then
        { result := .timeoutException, requests := 1, sleeps := [] }
      else
        let rest := backoffGo outcomes (attempt + 1) f
        { result := rest.result, requests := rest.requests + 1,
          sleeps := capSleep (expBackoff attempt) :: rest.sleeps }

/-- `notion_request_with_backoff` (lines 50-88): the loop starts with
`attempt = 0` and increments before the first request, so the first
request is attempt 1. -/
def notion_request_with_backoff (outcomes : Nat → Outcome) : RunTrace :=
  backoffGo outcomes 1 MAX_ATTEMPTS

/-- An outcome the loop treats as transient: a response with a
transient status, or a raised connection / timeout error. -/
def isTransient : Outcome → Bool
  | .resp st _ => transientStatus st
  | .connError => true
  | .timeout => true

/-- The failure the wrapper surfaces for a given last outcome:
`HTTPError` from `raise_for_status` on a transient response, or the
re-raised network exception. -/
def failureOf : Outcome → ReqResult
  | .resp st _ => .httpError st
  | .connError => .connException
  | .timeout => .timeoutException

/-- The sleep the loop performs after a given transient outcome at a
given attempt: the Retry-After-aware sleep for a transient response,
plain capped exponential backoff for a network error. -/
def stepSleep (attempt : Nat) : Outcome → ℚ
  | .resp _ ra => respSleep attempt ra
  | .connError => capSleep (expBackoff attempt)
  | .timeout => capSleep (expBackoff attempt)

/-- One rich-text item of a Notion title array, as read by
`search_database_by_title` line 104 (`x.get("plain_text", "")`). -/
structure RichText where
  plain_text : String
deriving DecidableEq

/-- One raw result object of a `/search` response, as consumed by
`search_database_by_title` (lines 97-108): its id, its optional
`title` array (`none` when the object carries no `title` key), and
whether the object carries a `properties` key. -/
structure SearchResult where
  id : String
  title : Option (List RichText)
  hasProperties : Bool
deriving DecidableEq

/-- The `prop_title` extraction of `search_database_by_title` (lines
100-106): join the `plain_text`s of a non-empty `title` array;
otherwise, when the object has a `properties` key, fall back to the
object's id; otherwise no title. -/
def extractedTitle (r : SearchResult) : Option String :=
  match r.title with
  | some t => if t.isEmpty then none else some (String.join (t.map RichText.plain_text))
  | none => if r.hasProperties then some r.id else none

/-- The acceptance test of line 107: `if prop_title and prop_title == title`
(a `None` or empty extracted title is falsy and never matches). -/
def titleMatches (target : String) (r : SearchResult) : Bool :=
  match extractedTitle r with
  | some s => s != "" && s == target
  | none => false

/-- `search_database_by_title` (lines 91-109) applied to the result
list of the search response: return the first result whose extracted
title matches the requested title exactly, else `None`. -/
def search_database_by_title (results : List SearchResult) (title : String) :
    Option SearchResult :=
  results.find? (titleMatches title)

/-- A property schema value of a database, mirroring the JSON property
objects built in `main` (lines 190-195, 211-216, 226, 243-247). -/
inductive PropSchema
  | titleSchema
  | url
  | select (options : List String)
  | date
  | relation (database_id : String)
deriving DecidableEq

/-- A database resource held by the remote workspace: its
remote-assigned id, its parent page, its title and its property
schema.  The workspace itself is not part of this repository; it is
modelled as the plain data the scripts read and write through the
Notion API. -/
structure DBEntry where
  id : String
  parent : String
  title : String
  props : List (String × PropSchema)
deriving DecidableEq

/-- A property value of a page, mirroring the page payloads of `main`
(lines 259-264 and 270-275). -/
inductive PageProp
  | titleVal (s : String)
  | selectVal (name : String)
  | urlVal (s : String)
  | relationVal (ids : List String)
deriving DecidableEq

/-- A page record held by the remote workspace. -/
structure Page where
  id : String
  parent_database_id : String
  props : List (String × PageProp)
deriving DecidableEq

/-- The remote workspace state: its databases and pages.  Modelled
from the spec: the remote service is external to this repository; per
the spec's data model it owns database resources located by title via
search, plus inserted records. -/
structure Workspace where
  dbs : List DBEntry
  pages : List Page
deriving DecidableEq

/-- How the `/search` endpoint lists a database: the Notion API
renders the database title as a rich-text array.  Modelled from the
spec: the endpoint itself is external; it is modelled as returning
every database of the workspace (rendered with a one-element rich-text
title), leaving the exact-title filtering to the client code, which is
what `search_database_by_title` does. -/
def renderDB (d : DBEntry) : SearchResult :=
  { id := d.id, title := some [{ plain_text := d.title }], hasProperties := true }

/-- The search view of a workspace: what a `/search` query returns. -/
def searchResults (w : Workspace) : List SearchResult :=
  w.dbs.map renderDB

/-- `create_database` (lines 112-120): POST `/databases` with a parent
page, a title and a property schema; the remote service assigns the
fresh id `freshId` and appends the new database. -/
def create_database (w : Workspace) (title parent freshId : String)
    (props : List (String × PropSchema)) : DBEntry × Workspace :=
  let entry : DBEntry := { id := freshId, parent := parent, title := title, props := props }
  (entry, { w with dbs := w.dbs ++ [entry] })

/-- The search-or-create step of `main` (lines 184-198, 206-219,
238-250): search for the title; if found reuse the result's id and
change nothing, otherwise create the database with the given schema
and use the fresh id.  Returns the resolved id, the new workspace
state, and whether a database was created. -/
def ensure_database (w : Workspace) (title parent freshId : String)
    (props : List (String × PropSchema)) : String × Workspace × Bool :=
  match search_database_by_title (searchResults w) title with
  | some r => (r.id, w, false)
  | none =>
    let (entry, w2) := create_database w title parent freshId props
    (entry.id, w2, true)

/-- The schema read back by `GET /databases/{id}` (lines 222-224):
the `properties` of the database with the given id. -/
def getSchema (w : Workspace) (database_id : String) : List (String × PropSchema) :=
  match w.dbs.find? (fun d => d.id == database_id) with
  | some d => d.props
  | none => []

/-- `patch_database_add_property` (lines 123-127): PATCH the database,
which the remote service applies by adding the named property to the
schema of every database with that id. -/
def patch_database_add_property (w : Workspace) (database_id property_name : String)
    (prop_schema : PropSchema) : Workspace :=
  { w with
    dbs := w.dbs.map (fun d =>
      if d.id == database_id then { d with props := d.props ++ [(property_name, prop_schema)] }
      else d) }

/-- The relation-ensuring step of `main` (lines 221-230): fetch the
LinkChecks schema; only when no property named "Chronicle" is present,
patch a relation to the Chronicle database in.  Returns whether a
PATCH was issued, and the resulting workspace. -/
def ensure_relation (w : Workspace) (link_id chron_id : String) : Bool × Workspace :=
  let link_schema := getSchema w link_id
  if !((link_schema.map Prod.fst).contains "Chronicle") then
    (true, patch_database_add_property w link_id "Chronicle" (.relation chron_id))
  else
    (false, w)

/-- `create_page` (lines 130-134): POST `/pages`; the remote service
assigns the fresh id and appends the page. -/
def create_page (w : Workspace) (database_id : String)
    (props : List (String × PageProp)) (freshId : String) : String × Workspace :=
  (freshId,
    { w with pages := w.pages ++ [{ id := freshId, parent_database_id := database_id,
                                    props := props }] })

/-- `EMOTION_OPTS` (line 176). -/
def EMOTION_OPTS : List String := ["Calm", "Curious", "Concerned", "Excited"]

/-- `INTENT_OPTS` (line 177). -/
def INTENT_OPTS : List String := ["Observe", "Explore", "Act", "Archive"]

/-- `STATUS_ENRICHED` (line 178). -/
def STATUS_ENRICHED : List String := ["New", "Enriched", "Ready for Pulse", "Archived"]

/-- `STATUS_INGESTION` (line 179). -/
def STATUS_INGESTION : List String := ["New", "Parsed", "Error"]

/-- `chron_props` (lines 190-195). -/
def chron_props : List (String × PropSchema) :=
  [("Title", .titleSchema), ("Emotion", .select EMOTION_OPTS), ("Intent", .select INTENT_OPTS),
   ("Status (Enriched)", .select STATUS_ENRICHED)]

/-- `link_props` (lines 211-216). -/
def link_props : List (String × PropSchema) :=
  [("Title", .titleSchema), ("URL", .url), ("Status (Ingestion)", .select STATUS_INGESTION)]

/-- `runlog_props` (lines 243-247). -/
def runlog_props : List (String × PropSchema) :=
  [("Title", .titleSchema), ("RunDate", .date), ("Status", .select ["OK", "Fail"])]

/-- The fresh ids the remote service would assign to the resources a
run may create (passed in because the model is pure). -/
structure FreshIds where
  chronDb : String
  linkDb : String
  runlogDb : String
  chronPage : String
  linkPage : String
deriving DecidableEq

/-- The observable result of one run of the initializer. -/
structure InitResult where
  exit : Nat
  workspace : Workspace
  chron_id : Option String
  link_id : Option String
  runlog_id : Option String
  createdTitles : List String
  patchedRelation : Bool
deriving DecidableEq

/-- `main` of astra_notion_init.py (lines 152-284), with the
environment values `NOTION_TOKEN` and `PARENT_PAGE_ID` passed in,
the remote workspace state threaded explicitly, and `suffix` standing
for `uuid.uuid4().hex[:8]` of the smoke test (line 258).  The guard of
lines 164-166 exits with code 2; afterwards the three databases are
ensured, the LinkChecks → Chronicle relation is ensured, and the smoke
test pair of pages is inserted.  The remote operations of this pure
model always succeed, so the `sys.exit(1)` exception handlers of the
script are never taken here. -/
def astra_main (token parent_page : Option String) (w : Workspace)
    (ids : FreshIds) (suffix : String) : InitResult :=
  if !truthy token || !truthy parent_page then
    { exit := 2, workspace := w, chron_id := none, link_id := none, runlog_id := none,
      createdTitles := [], patchedRelation := false }
  else
    let p := parent_page.getD ""
    let e1 := ensure_database w "Chronicle" p ids.chronDb chron_props
    let chron_id := e1.1
    let w1 := e1.2.1
    let e2 := ensure_database w1 "LinkChecks" p ids.linkDb link_props
    let link_id := e2.1
    let w2 := e2.2.1
    let rel := ensure_relation w2 link_id chron_id
    let w3 := rel.2
    let e3 := ensure_database w3 "RunLog" p ids.runlogDb runlog_props
    let runlog_id := e3.1
    let w4 := e3.2.1
    let test_title := "astra-init-test-" ++ suffix
    let page_props : List (String × PageProp) :=
      [("Title", .titleVal test_title),
       ("Emotion", .selectVal (EMOTION_OPTS.getD 0 "")),
       ("Intent", .selectVal (INTENT_OPTS.getD 0 "")),
       ("Status (Enriched)", .selectVal (STATUS_ENRICHED.getD 0 ""))]
    let pg1 := create_page w4 chron_id page_props ids.chronPage
    let page_id := pg1.1
    let w5 := pg1.2
    let lc_props : List (String × PageProp) :=
      [("Title", .titleVal ("link-" ++ test_title)),
       ("URL", .urlVal "https://example.invalid/"),
       ("Status (Ingestion)", .selectVal (STATUS_INGESTION.getD 0 "")),
       ("Chronicle", .relationVal [page_id])]
    let pg2 := create_page w5 link_id lc_props ids.linkPage
    let w6 := pg2.2
    { exit := 0, workspace := w6,
      chron_id := some chron_id, link_id := some link_id, runlog_id := some runlog_id,
      createdTitles :=
        (if e1.2.2 then ["Chronicle"] else []) ++ (if e2.2.2 then ["LinkChecks"] else []) ++
        (if e3.2.2 then ["RunLog"] else []),
      patchedRelation := rel.1 }

end AstraInit

namespace QuietValidator

/-- The outcome of the single probing `requests.post`: a response with
a status code and body text, or any raised exception. -/
inductive ProbeOutcome
  | resp (status : Nat) (body : String)
  | exn
deriving DecidableEq

/-- The lines the validator prints, one constructor per `print` call
of the two quiet_validator.py files (the dynamic pieces kept as
data). -/
inductive VLine
  | banner
  | secretsPresent (tokenYes linkYes : Bool)
  | radarPresent (radarYes projectYes : Bool)
  | affTag (value : String)
  | notConfigured
  | queryStatus (status : Nat)
  | okVerified
  | warning (status : Nat) (bodyPrefix : String)
  | exceptionNote
deriving DecidableEq

/-- The observable result of one validator run: the value returned to
`sys.exit`, the printed lines in order, and how many HTTP requests
were issued. -/
structure VRun where
  exit : Nat
  output : List VLine
  requests : Nat
deriving DecidableEq

/-- `main` of scripts/quiet_validator.py (lines 9-45): read the
environment, print the banner and presence report; without
`NOTION_TOKEN` and `LINKCHECK_DB_ID` print the not-configured message
and return 0; otherwise issue the one `page_size = 1` query (timeout
15) and return 0 whatever its status (body truncated to 400
characters in the warning) and even when it raises. -/
def validator_main (token link_db radar_db project_db aff : Option String)
    (probe : ProbeOutcome) : VRun :=
  let affv := aff.getD "abinom55-20"
  let header : List VLine :=
    [.banner, .secretsPresent (truthy token) (truthy link_db),
     .radarPresent (truthy radar_db) (truthy project_db), .affTag affv]
  if !truthy token || !truthy link_db then
    { exit := 0, output := header ++ [.notConfigured], requests := 0 }
  else
    match probe with
    | .resp st body =>
      if st == 200 then
        { exit := 0, output := header ++ [.queryStatus st, .okVerified], requests := 1 }
      else
        { exit := 0, output := header ++ [.queryStatus st, .warning st (body.take 400)],
          requests := 1 }
    | .exn => { exit := 0, output := header ++ [.exceptionNote], requests := 1 }

/-- `main` of .github/workflows/scripts/quiet_validator.py (lines
3-39): the same shape without the radar/project presence line,
timeout 10 and a 200-character body truncation. -/
def workflow_validator_main (token link_db aff : Option String)
    (probe : ProbeOutcome) : VRun :=
  let affv := aff.getD "abinom55-20"
  let header : List VLine :=
    [.banner, .secretsPresent (truthy token) (truthy link_db), .affTag affv]
  if !truthy token || !truthy link_db then
    { exit := 0, output := header ++ [.notConfigured], requests := 0 }
  else
    match probe with
    | .resp st body =>
      if st == 200 then
        { exit := 0, output := header ++ [.queryStatus st, .okVerified], requests := 1 }
      else
        { exit := 0, output := header ++ [.queryStatus st, .warning st (body.take 200)],
          requests := 1 }
    | .exn => { exit := 0, output := header ++ [.exceptionNote], requests := 1 }

end QuietValidator

namespace Upsert

/-- One outbound GitHub API request of
upsert_secrets_and_dispatch.py, carrying the repository it targets:
the public-key fetch (`get_repo_public_key`), a secret upsert PUT
(`upsert_secret`, with the encrypted value and the key id it sends), a
verification GET (`verify_secret_exists`), and a workflow dispatch
POST (`dispatch_workflow`). -/
inductive GhReq
  | getPublicKey (repo : String)
  | putSecret (repo name encrypted_value key_id : String)
  | getSecret (repo name : String)
  | dispatch (repo workflow_id ref : String)
deriving DecidableEq

/-- The environment variables `main` reads (lines 149-208). -/
structure Env where
  github_token : Option String
  github_repository : Option String
  notion_token : Option String
  linkcheck_db_id : Option String
  radar_db_id : Option String
  project_tracker_db_id : Option String
  no_dispatch : Option String
  workflow_ref : Option String

/-- The remote side of a run, passed in because the model is pure:
whether the public-key fetch succeeds and what it returns, whether
each upsert PUT succeeds ("succeeds" = `raise_for_status` does not
raise), the status code of each verification GET, whether the
dispatch POST succeeds, and the sealed-box encryption itself
(`encrypt_secret`, a standard libsodium primitive, kept abstract as a
function of the public key and the plaintext). -/
structure World where
  keyOk : Bool
  key_id : String
  publicKey : String
  putOk : String → Bool
  verifyStatus : String → Nat
  dispatchOk : Bool
  sealedBox : String → String → String

/-- The lines the tool prints, one constructor per claim-relevant
`print` call (decorative step banners are not modelled). -/
inductive UpLine
  | errMissingToken
  | warnNoSecrets
  | expectedNames (names : List String)
  | upserting (count : Nat)
  | secretUpserted (name : String)
  | secretVerified (name : String)
  | secretNotFound (name : String)
  | someNotVerified
  | skippingDispatch
  | workflowDispatched (ref : String)
  | allDone
  | httpErrorMsg
deriving DecidableEq

/-- The observable result of one run: the exit code, the trace of
outbound requests in order, and the stdout / stderr lines. -/
structure Run where
  exit : Nat
  trace : List GhReq
  stdout : List UpLine
  stderr : List UpLine
deriving DecidableEq

/-- The names of the four recognized secret environment variables, in
the order of the `secrets_to_upsert` dict (lines 158-163). -/
def SECRET_NAMES : List String :=
  ["NOTION_TOKEN", "LINKCHECK_DB_ID", "RADAR_DB_ID", "PROJECT_TRACKER_DB_ID"]

/-- Lines 158-166: collect the four named values and drop the unset
ones (`v is not None` — an empty string is kept). -/
def secretsToUpsert (e : Env) : List (String × String) :=
  ([("NOTION_TOKEN", e.notion_token), ("LINKCHECK_DB_ID", e.linkcheck_db_id),
    ("RADAR_DB_ID", e.radar_db_id),
    ("PROJECT_TRACKER_DB_ID", e.project_tracker_db_id)]).filterMap
    (fun p => p.2.map (fun v => (p.1, v)))

/-- The default repository (line 155). -/
def DEFAULT_REPO : String := "neuromagic888-cloud/astra-link-validator"

/-- `repo = os.getenv("GITHUB_REPOSITORY", ...)` (line 155). -/
def repoOf (e : Env) : String := e.github_repository.getD DEFAULT_REPO

/-- The workflow file dispatched (line 206). -/
def WORKFLOW_ID : String := "quiet-link-validator.yml"

/-- The result of the encrypt-and-upsert loop (lines 183-185). -/
structure UploadOut where
  trace : List GhReq
  stdout : List UpLine
  ok : Bool
deriving DecidableEq

/-- The encrypt-and-upsert loop (lines 183-185): for each secret,
encrypt with the fetched public key and PUT it; a failing PUT raises
out of the loop (`raise_for_status` in `upsert_secret`), so later
secrets are not attempted. -/
def uploadLoop (w : World) (repo : String) : List (String × String) → UploadOut
  | [] => { trace := [], stdout := [], ok := true }
  | (n, v) :: rest =>
    let encrypted := w.sealedBox w.publicKey v
    let req := GhReq.putSecret repo n encrypted w.key_id
    if w.putOk n then
      let r := uploadLoop w repo rest
      { trace := req :: r.trace, stdout := .secretUpserted n :: r.stdout, ok := r.ok }
    else
      { trace := [req], stdout := [], ok := false }

/-- The result of the verification loop (lines 188-196). -/
structure VerifyOut where
  trace : List GhReq
  stdout : List UpLine
  stderr : List UpLine
  allOk : Bool
deriving DecidableEq

/-- The verification loop (lines 188-196): GET every secret;
`verify_secret_exists` never raises, a non-200 only clears
`all_verified`, so every secret is checked. -/
def verifyLoop (w : World) (repo : String) : List (String × String) → VerifyOut
  | [] => { trace := [], stdout := [], stderr := [], allOk := true }
  | (n, _) :: rest =>
    let r := verifyLoop w repo rest
    if w.verifyStatus n == 200 then
      { trace := GhReq.getSecret repo n :: r.trace, stdout := .secretVerified n :: r.stdout,
        stderr := r.stderr, allOk := r.allOk }
    else
      { trace := GhReq.getSecret repo n :: r.trace, stdout := r.stdout,
        stderr := .secretNotFound n :: r.stderr, allOk := false }

/-- `all_verified` as the loop computes it: every verification GET
returned 200. -/
def allVerified (w : World) (secrets : List (String × String)) : Bool :=
  secrets.all (fun p => w.verifyStatus p.1 == 200)

/-- `main` of upsert_secrets_and_dispatch.py (lines 146-219): guard on
`GITHUB_TOKEN`, collect the secrets and guard on emptiness, fetch the
public key once, encrypt and upsert each secret, verify every secret,
then (unless `NO_DISPATCH` is truthy) dispatch the workflow on
`WORKFLOW_REF` (default "main").  Any raising request is caught by the
outer handler, which prints to stderr and exits 1; a failed
verification exits 1 after the whole verification loop. -/
def main (e : Env) (w : World) : Run :=
  if !truthy e.github_token then
    { exit := 1, trace := [], stdout := [], stderr := [.errMissingToken] }
  else
    let repo := repoOf e
    let secrets := secretsToUpsert e
    if secrets.isEmpty then
      { exit := 1, trace := [], stdout := [.expectedNames SECRET_NAMES],
        stderr := [.warnNoSecrets] }
    else
      let header : List UpLine := [.upserting secrets.length]
      if !w.keyOk then
        { exit := 1, trace := [.getPublicKey repo], stdout := header, stderr := [.httpErrorMsg] }
      else
        let up := uploadLoop w repo secrets
        if !up.ok then
          { exit := 1, trace := GhReq.getPublicKey repo :: up.trace,
            stdout := header ++ up.stdout, stderr := [.httpErrorMsg] }
        else
          let ver := verifyLoop w repo secrets
          if !ver.allOk then
            { exit := 1, trace := GhReq.getPublicKey repo :: up.trace ++ ver.trace,
              stdout := header ++ up.stdout ++ ver.stdout,
              stderr := ver.stderr ++ [.someNotVerified] }
          else if truthy e.no_dispatch then
            { exit := 0, trace := GhReq.getPublicKey repo :: up.trace ++ ver.trace,
              stdout := header ++ up.stdout ++ ver.stdout ++ [.skippingDispatch, .allDone],
              stderr := [] }
          else
            let ref := e.workflow_ref.getD "main"
            let tr := GhReq.getPublicKey repo :: up.trace ++ ver.trace ++
              [GhReq.dispatch repo WORKFLOW_ID ref]
            if w.dispatchOk then
              { exit := 0, trace := tr,
                stdout := header ++ up.stdout ++ ver.stdout ++ [.workflowDispatched ref, .allDone],
                stderr := [] }
            else
              { exit := 1, trace := tr, stdout := header ++ up.stdout ++ ver.stdout,
                stderr := [.httpErrorMsg] }

end Upsert

namespace AstraInit

/-- A request sequence in which every attempt gets HTTP 503. -/
def alwaysBusy : Nat → Outcome := fun _ => .resp 503 .absent

/-- Two 503 responses, then 200s. -/
def busyTwiceThenOk : Nat → Outcome :=
  fun i => if i ≤ 2 then .resp 503 .absent else .resp 200 .absent

/-- A 429 carrying `Retry-After: 20`, then a 200. -/
def largeRetryAfter : Nat → Outcome :=
  fun i => if i = 1 then .resp 429 (.value 20) else .resp 200 .absent

/-- A 429 carrying `Retry-After: 2`, then a 200. -/
def retryAfterTwo : Nat → Outcome :=
  fun i => if i = 1 then .resp 429 (.value 2) else .resp 200 .absent

/-- A workspace whose LinkChecks database already carries the
"Chronicle" relation property. -/
def linkedWorkspace : Workspace :=
  { dbs := [{ id := "db-link", parent := "pg", title := "LinkChecks",
              props := link_props ++ [("Chronicle", .relation "db-chron")] }],
    pages := [] }

/-- An initially empty workspace. -/
def emptyWorkspace : Workspace := { dbs := [], pages := [] }

/-- Fresh remote ids for a first run. -/
def freshA : FreshIds :=
  { chronDb := "c1", linkDb := "l1", runlogDb := "r1", chronPage := "p1", linkPage := "q1" }

/-- Fresh remote ids for a second run. -/
def freshB : FreshIds :=
  { chronDb := "c2", linkDb := "l2", runlogDb := "r2", chronPage := "p2", linkPage := "q2" }

end AstraInit

namespace Upsert

/-- An environment with two recognized secrets set and dispatch
disabled. -/
def twoSecretsEnv : Env :=
  { github_token := some "ghp-tok", github_repository := none,
    notion_token := some "ntn-value", linkcheck_db_id := some "db-value",
    radar_db_id := none, project_tracker_db_id := none,
    no_dispatch := some "1", workflow_ref := none }

/-- The same environment with dispatch enabled. -/
def dispatchEnv : Env := { twoSecretsEnv with no_dispatch := none }

/-- An environment with no GitHub token. -/
def noTokenEnv : Env :=
  { github_token := none, github_repository := none,
    notion_token := some "ntn-value", linkcheck_db_id := none,
    radar_db_id := none, project_tracker_db_id := none,
    no_dispatch := none, workflow_ref := none }

/-- An environment whose GitHub token is set to the empty string. -/
def emptyTokenEnv : Env :=
  { github_token := some "", github_repository := none,
    notion_token := some "ntn-value", linkcheck_db_id := none,
    radar_db_id := none, project_tracker_db_id := none,
    no_dispatch := none, workflow_ref := none }

/-- An environment with a token but no recognized secret set. -/
def noSecretsEnv : Env :=
  { github_token := some "ghp-tok", github_repository := none,
    notion_token := none, linkcheck_db_id := none,
    radar_db_id := none, project_tracker_db_id := none,
    no_dispatch := none, workflow_ref := none }

/-- A remote side on which every request succeeds and every
verification returns 200. -/
def allOkWorld : World :=
  { keyOk := true, key_id := "key-1", publicKey := "pk-base64",
    putOk := fun _ => true, verifyStatus := fun _ => 200, dispatchOk := true,
    sealedBox := fun k v => k ++ ":" ++ v }

/-- A remote side on which the verification of `LINKCHECK_DB_ID`
returns 404 and everything else succeeds. -/
def oneVerifyFailsWorld : World :=
  { allOkWorld with verifyStatus := fun n => if n == "LINKCHECK_DB_ID" then 404 else 200 }

end Upsert

namespace AstraInit

lemma backoffGo_nontransient (outcomes : Nat → Outcome) (attempt fuel st : Nat)
    (ra : RetryAfterHeader)
    (ho : outcomes attempt = .resp st ra) (hnt : transientStatus st = false) :
    backoffGo outcomes attempt fuel = { result := .ok st ra, requests := 1, sleeps := [] } := by
  cases fuel <;> simp [backoffGo, ho, hnt]

lemma backoffGo_ceiling (outcomes : Nat → Outcome) (fuel : Nat)
    (h : isTransient (outcomes MAX_ATTEMPTS) = true) :
    backoffGo outcomes MAX_ATTEMPTS fuel =
      { result := failureOf (outcomes MAX_ATTEMPTS), requests := 1, sleeps := [] } := by
  cases fuel <;>
    cases ho : outcomes MAX_ATTEMPTS with
    | resp st ra =>
      rw [ho] at h
      simp only [isTransient] at h
      simp [backoffGo, ho, h, failureOf]
    | connError => simp [backoffGo, ho, failureOf]
    | timeout => simp [backoffGo, ho, failureOf]

lemma backoffGo_transient_step (outcomes : Nat → Outcome) (attempt f : Nat)
    (htr : isTransient (outcomes attempt) = true) (hlt : ¬ MAX_ATTEMPTS ≤ attempt) :
    backoffGo outcomes attempt (f + 1) =
      { result := (backoffGo outcomes (attempt + 1) f).result,
        requests := (backoffGo outcomes (attempt + 1) f).requests + 1,
        sleeps := stepSleep attempt (outcomes attempt) ::
          (backoffGo outcomes (attempt + 1) f).sleeps } := by
  cases ho : outcomes attempt with
  | resp st ra =>
    rw [ho] at htr
    simp only [isTransient] at htr
    simp [backoffGo, ho, htr, hlt, stepSleep]
  | connError => simp [backoffGo, ho, hlt, stepSleep]
  | timeout => simp [backoffGo, ho, hlt, stepSleep]

lemma backoffGo_all_transient (outcomes : Nat → Outcome)
    (ht : ∀ i, isTransient (outcomes i) = true) :
    ∀ n attempt, attempt + n = MAX_ATTEMPTS →
      (backoffGo outcomes attempt (n + 1)).result = failureOf (outcomes MAX_ATTEMPTS) ∧
      (backoffGo outcomes attempt (n + 1)).requests = n + 1 := by
  intro n
  induction n with
  | zero =>
    intro attempt h
    have ha : attempt = MAX_ATTEMPTS := by omega
    subst ha
    rw [backoffGo_ceiling outcomes (0 + 1) (ht MAX_ATTEMPTS)]
    exact ⟨rfl, rfl⟩
  | succ m ih =>
    intro attempt h
    have hlt : ¬ MAX_ATTEMPTS ≤ attempt := by omega
    have ihr := ih (attempt + 1) (by omega)
    rw [backoffGo_transient_step outcomes attempt (m + 1) (ht attempt) hlt]
    exact ⟨ihr.1, by rw [ihr.2]⟩

lemma backoffGo_success (outcomes : Nat → Outcome) (stop : Nat) (ra : RetryAfterHeader)
    (hstop : outcomes stop = .resp 200 ra) (hle : stop ≤ MAX_ATTEMPTS) :
    ∀ d attempt fuel, attempt + d = stop → d < fuel →
      (∀ i, attempt ≤ i → i < stop → isTransient (outcomes i) = true) →
      (backoffGo outcomes attempt fuel).result = .ok 200 ra ∧
      (backoffGo outcomes attempt fuel).requests = d + 1 := by
  intro d
  induction d with
  | zero =>
    intro attempt fuel h _ _
    have ha : attempt = stop := by omega
    subst ha
    rw [backoffGo_nontransient outcomes attempt fuel 200 ra hstop (by decide)]
    exact ⟨rfl, rfl⟩
  | succ m ih =>
    intro attempt fuel h hf hpre
    have hlt : ¬ MAX_ATTEMPTS ≤ attempt := by omega
    obtain ⟨f, rfl⟩ : ∃ f, fuel = f + 1 := ⟨fuel - 1, by omega⟩
    have htr := hpre attempt (le_refl _) (by omega)
    have ihr := ih (attempt + 1) f (by omega) (by omega) (fun i h1 h2 => hpre i (by omega) h2)
    rw [backoffGo_transient_step outcomes attempt f htr hlt]
    exact ⟨ihr.1, by rw [ihr.2]⟩

/-- C1: if every request yields a transient result (HTTP 429 / 500 /
502 / 503 / 504 or a connection / timeout error), the wrapper retries
up to the fixed ceiling `MAX_ATTEMPTS = 6`, issues exactly 6 requests
and surfaces the failure of the last attempt; and if the first `k < 6`
attempts are transient and attempt `k + 1` yields a 200, the wrapper
returns that 200 response having issued `k + 1 ≤ MAX_ATTEMPTS`
requests. -/
theorem backoff_retries_to_ceiling_or_success :
    (∀ outcomes : Nat → Outcome, (∀ i, isTransient (outcomes i) = true) →
      (notion_request_with_backoff outcomes).result = failureOf (outcomes MAX_ATTEMPTS) ∧
      (notion_request_with_backoff outcomes).requests = MAX_ATTEMPTS) ∧
    (∀ (outcomes : Nat → Outcome) (k : Nat) (ra : RetryAfterHeader),
      k + 1 ≤ MAX_ATTEMPTS →
      (∀ i, 1 ≤ i → i ≤ k → isTransient (outcomes i) = true) →
      outcomes (k + 1) = .resp 200 ra →
      (notion_request_with_backoff outcomes).result = .ok 200 ra ∧
      (notion_request_with_backoff outcomes).requests = k + 1 ∧
      (notion_request_with_backoff outcomes).requests ≤ MAX_ATTEMPTS) := by
  constructor
  · intro outcomes ht
    have h := backoffGo_all_transient outcomes ht (MAX_ATTEMPTS - 1) 1 (by decide)
    have hfix : MAX_ATTEMPTS - 1 + 1 = MAX_ATTEMPTS := by decide
    rw [hfix] at h
    exact ⟨h.1, h.2⟩
  · intro outcomes k ra hk hpre h200
    have h := backoffGo_success outcomes (k + 1) ra h200 hk k 1 MAX_ATTEMPTS
      (by omega) (by omega) (fun i h1 h2 => hpre i h1 (by omega))
    refine ⟨h.1, h.2, ?_⟩
    show (backoffGo outcomes 1 MAX_ATTEMPTS).requests ≤ MAX_ATTEMPTS
    rw [h.2]
    exact hk

/-- Witness for C1: six 503s exhaust the attempts and surface an
`HTTPError` for the last 503 after exactly 6 requests; two 503s
followed by a 200 return the 200 after 3 requests. -/
theorem backoff_retries_to_ceiling_or_success_witness :
    ((notion_request_with_backoff alwaysBusy).result = .httpError 503 ∧
     (notion_request_with_backoff alwaysBusy).requests = 6) ∧
    ((notion_request_with_backoff busyTwiceThenOk).result = .ok 200 .absent ∧
     (notion_request_with_backoff busyTwiceThenOk).requests = 3) := by
  constructor
  · exact backoff_retries_to_ceiling_or_success.1 alwaysBusy (fun i => rfl)
  · have h := backoff_retries_to_ceiling_or_success.2 busyTwiceThenOk 2 .absent
      (by decide)
      (by
        intro i h1 h2
        simp [busyTwiceThenOk, h2, isTransient, transientStatus])
      (by rfl)
    exact ⟨h.1, h.2.1⟩

/-- C6: a response whose status is not one of 429 / 500 / 502 / 503 /
504 is returned to the caller after exactly one request, with no
retry and no sleep. -/
theorem non_transient_returned_immediately (outcomes : Nat → Outcome)
    (st : Nat) (ra : RetryAfterHeader)
    (h1 : outcomes 1 = .resp st ra) (hnt : transientStatus st = false) :
    notion_request_with_backoff outcomes =
      { result := .ok st ra, requests := 1, sleeps := [] } :=
  backoffGo_nontransient outcomes 1 MAX_ATTEMPTS st ra h1 hnt

/-- Witness for C6: a single 404 (a non-transient 4xx) is returned
immediately. -/
theorem non_transient_returned_immediately_witness :
    notion_request_with_backoff (fun _ => .resp 404 .absent) =
      { result := .ok 404 .absent, requests := 1, sleeps := [] } :=
  non_transient_returned_immediately (fun _ => .resp 404 .absent) 404 .absent rfl (by decide)

/-- Counterexample to C4 as stated: for a transient response carrying
`Retry-After: 20` the wrapper does not sleep the server-provided 20
seconds; the cap of lines 75-76 reduces the sleep to 10 seconds. -/
theorem retry_after_large_value_not_honored :
    (notion_request_with_backoff largeRetryAfter).sleeps = [10] ∧
    (notion_request_with_backoff largeRetryAfter).result = .ok 200 .absent ∧
    ¬ (notion_request_with_backoff largeRetryAfter).sleeps = [20] := by
  refine ⟨by decide, by decide, by decide⟩

/-- C4 as amended: a numeric Retry-After value `q ≥ 0` on a transient
first response is honored up to the 10-second cap — the wrapper
sleeps `min q 10` seconds and then retries exactly once more when the
second attempt yields a 200; in particular for every `q ≤ 10`
(e.g. the spec's `Retry-After: 2`) it sleeps exactly `q` seconds.
(The hypothesis `0 ≤ q` matches the values `time.sleep` accepts.) -/
theorem retry_after_honored_up_to_cap (outcomes : Nat → Outcome) (q : ℚ)
    (ra : RetryAfterHeader) (_hq : 0 ≤ q)
    (h1 : outcomes 1 = .resp 429 (.value q)) (h2 : outcomes 2 = .resp 200 ra) :
    (notion_request_with_backoff outcomes).sleeps = [if q > 10 then 10 else q] ∧
    (notion_request_with_backoff outcomes).requests = 2 ∧
    (notion_request_with_backoff outcomes).result = .ok 200 ra ∧
    (q ≤ 10 → (notion_request_with_backoff outcomes).sleeps = [q]) := by
  have htr1 : isTransient (outcomes 1) = true := by
    rw [h1]; simp [isTransient, transientStatus]
  have h2nd : backoffGo outcomes 2 (4 + 1) =
      { result := .ok 200 ra, requests := 1, sleeps := [] } :=
    backoffGo_nontransient outcomes 2 (4 + 1) 200 ra h2 (by decide)
  have hmain : notion_request_with_backoff outcomes =
      { result := .ok 200 ra, requests := 2, sleeps := [respSleep 1 (.value q)] } := by
    show backoffGo outcomes 1 (4 + 1 + 1) = _
    rw [backoffGo_transient_step outcomes 1 (4 + 1) htr1 (by decide), h2nd]
    simp [stepSleep, h1]
  rw [hmain]
  refine ⟨by simp [respSleep, capSleep], rfl, rfl, ?_⟩
  intro hle
  simp [respSleep, capSleep, not_lt.mpr hle]

/-- Witness for C4 (amended): `Retry-After: 2` on a 429 makes the
wrapper sleep exactly 2 seconds and retry exactly once more,
returning the following 200. -/
theorem retry_after_honored_up_to_cap_witness :
    (notion_request_with_backoff retryAfterTwo).sleeps = [2] ∧
    (notion_request_with_backoff retryAfterTwo).requests = 2 ∧
    (notion_request_with_backoff retryAfterTwo).result = .ok 200 .absent := by
  have h := retry_after_honored_up_to_cap retryAfterTwo 2 .absent (by norm_num) rfl rfl
  exact ⟨h.2.2.2 (by norm_num), h.2.1, h.2.2.1⟩

lemma join_singleton (s : String) : String.join [s] = s := rfl

lemma titleMatches_renderDB (t : String) (d : DBEntry) :
    titleMatches t (renderDB d) = (d.title != "" && d.title == t) := by
  simp [titleMatches, renderDB, extractedTitle, join_singleton]

lemma search_found_extend (view extra : List SearchResult) (t : String) (r : SearchResult)
    (h : search_database_by_title view t = some r) :
    search_database_by_title (view ++ extra) t = some r := by
  unfold search_database_by_title at h ⊢
  rw [List.find?_append, h]
  rfl

lemma search_none_extend (view : List SearchResult) (t : String)
    (h : search_database_by_title view t = none) (extra : List SearchResult) :
    search_database_by_title (view ++ extra) t = search_database_by_title extra t := by
  unfold search_database_by_title at h ⊢
  rw [List.find?_append, h]
  rfl

lemma ensure_database_found (w : Workspace) (t p f : String)
    (props : List (String × PropSchema)) (r : SearchResult)
    (h : search_database_by_title (searchResults w) t = some r) :
    ensure_database w t p f props = (r.id, w, false) := by
  simp [ensure_database, h]

lemma ensure_database_created (w : Workspace) (t p f : String)
    (props : List (String × PropSchema))
    (h : search_database_by_title (searchResults w) t = none) :
    ensure_database w t p f props =
      (f, { w with dbs := w.dbs ++ [{ id := f, parent := p, title := t, props := props }] },
        true) := by
  simp [ensure_database, h, create_database]

lemma searchResults_append_db (w : Workspace) (e : DBEntry) :
    searchResults { w with dbs := w.dbs ++ [e] } = searchResults w ++ [renderDB e] := by
  simp [searchResults]

lemma renderDB_patch_entry (database_id property_name : String) (ps : PropSchema)
    (d : DBEntry) :
    renderDB (if d.id == database_id
              then { d with props := d.props ++ [(property_name, ps)] } else d) =
      renderDB d := by
  cases h : d.id == database_id <;> simp [renderDB, h]

lemma searchResults_patch (w : Workspace) (database_id property_name : String)
    (ps : PropSchema) :
    searchResults (patch_database_add_property w database_id property_name ps) =
      searchResults w := by
  simp only [searchResults, patch_database_add_property, List.map_map]
  exact List.map_congr_left (fun d _ => renderDB_patch_entry database_id property_name ps d)

lemma searchResults_ensure_relation (w : Workspace) (link_id chron_id : String) :
    searchResults (ensure_relation w link_id chron_id).2 = searchResults w := by
  unfold ensure_relation
  dsimp only
  split
  · exact searchResults_patch w link_id "Chronicle" (.relation chron_id)
  · rfl

lemma searchResults_create_page (w : Workspace) (db : String)
    (props : List (String × PageProp)) (f : String) :
    searchResults (create_page w db props f).2 = searchResults w := rfl

lemma ensure_view_extension (w : Workspace) (t p f : String)
    (props : List (String × PropSchema)) :
    ∃ extra, searchResults (ensure_database w t p f props).2.1 = searchResults w ++ extra := by
  cases h : search_database_by_title (searchResults w) t with
  | some r =>
    rw [ensure_database_found w t p f props r h]
    exact ⟨[], by simp⟩
  | none =>
    rw [ensure_database_created w t p f props h]
    exact ⟨[renderDB { id := f, parent := p, title := t, props := props }],
      searchResults_append_db w _⟩

lemma ensure_stable (w wext : Workspace) (t p f p2 f2 : String)
    (props props2 : List (String × PropSchema)) (ht : t ≠ "")
    (extra : List SearchResult)
    (hview : searchResults wext = searchResults (ensure_database w t p f props).2.1 ++ extra) :
    ensure_database wext t p2 f2 props2 =
      ((ensure_database w t p f props).1, wext, false) := by
  cases h : search_database_by_title (searchResults w) t with
  | some r =>
    rw [ensure_database_found w t p f props r h] at hview ⊢
    have hs : search_database_by_title (searchResults wext) t = some r := by
      rw [hview]
      exact search_found_extend _ _ _ _ h
    rw [ensure_database_found wext t p2 f2 props2 r hs]
  | none =>
    rw [ensure_database_created w t p f props h] at hview ⊢
    have hpos :
        titleMatches t (renderDB { id := f, parent := p, title := t, props := props }) = true := by
      rw [titleMatches_renderDB]
      simp [ht]
    have hs : search_database_by_title (searchResults wext) t =
        some (renderDB { id := f, parent := p, title := t, props := props }) := by
      rw [hview, searchResults_append_db, List.append_assoc, search_none_extend _ _ h]
      unfold search_database_by_title
      rw [List.singleton_append, List.find?_cons_of_pos _ hpos]
    rw [ensure_database_found wext t p2 f2 props2 _ hs]
    rfl

lemma astra_main_fields (token parent : Option String) (w : Workspace) (ids : FreshIds)
    (sfx : String) (htok : truthy token = true) (hpar : truthy parent = true) :
    (astra_main token parent w ids sfx).chron_id =
      some (ensure_database w "Chronicle" (parent.getD "") ids.chronDb chron_props).1 ∧
    (astra_main token parent w ids sfx).link_id =
      some (ensure_database
        (ensure_database w "Chronicle" (parent.getD "") ids.chronDb chron_props).2.1
        "LinkChecks" (parent.getD "") ids.linkDb link_props).1 ∧
    (astra_main token parent w ids sfx).runlog_id =
      some (ensure_database
        (ensure_relation
          (ensure_database
            (ensure_database w "Chronicle" (parent.getD "") ids.chronDb chron_props).2.1
            "LinkChecks" (parent.getD "") ids.linkDb link_props).2.1
          (ensure_database
            (ensure_database w "Chronicle" (parent.getD "") ids.chronDb chron_props).2.1
            "LinkChecks" (parent.getD "") ids.linkDb link_props).1
          (ensure_database w "Chronicle" (parent.getD "") ids.chronDb chron_props).1).2
        "RunLog" (parent.getD "") ids.runlogDb runlog_props).1 ∧
    (astra_main token parent w ids sfx).createdTitles =
      (if (ensure_database w "Chronicle" (parent.getD "") ids.chronDb chron_props).2.2
         then ["Chronicle"] else []) ++
      (if (ensure_database
            (ensure_database w "Chronicle" (parent.getD "") ids.chronDb chron_props).2.1
            "LinkChecks" (parent.getD "") ids.linkDb link_props).2.2
         then ["LinkChecks"] else []) ++
      (if (ensure_database
            (ensure_relation
              (ensure_database
                (ensure_database w "Chronicle" (parent.getD "") ids.chronDb chron_props).2.1
                "LinkChecks" (parent.getD "") ids.linkDb link_props).2.1
              (ensure_database
                (ensure_database w "Chronicle" (parent.getD "") ids.chronDb chron_props).2.1
                "LinkChecks" (parent.getD "") ids.linkDb link_props).1
              (ensure_database w "Chronicle" (parent.getD "") ids.chronDb chron_props).1).2
            "RunLog" (parent.getD "") ids.runlogDb runlog_props).2.2
         then ["RunLog"] else []) ∧
    searchResults (astra_main token parent w ids sfx).workspace =
      searchResults (ensure_database
        (ensure_relation
          (ensure_database
            (ensure_database w "Chronicle" (parent.getD "") ids.chronDb chron_props).2.1
            "LinkChecks" (parent.getD "") ids.linkDb link_props).2.1
          (ensure_database
            (ensure_database w "Chronicle" (parent.getD "") ids.chronDb chron_props).2.1
            "LinkChecks" (parent.getD "") ids.linkDb link_props).1
          (ensure_database w "Chronicle" (parent.getD "") ids.chronDb chron_props).1).2
        "RunLog" (parent.getD "") ids.runlogDb runlog_props).2.1 := by
  have hguard : (!truthy token || !truthy parent) = false := by rw [htok, hpar]; rfl
  simp [astra_main, hguard, searchResults_create_page]

lemma bootstrap_pipeline_stable (w wf : Workspace) (p : String)
    (cf lf rf cf2 lf2 rf2 : String)
    (E1 : String × Workspace × Bool)
    (hE1 : E1 = ensure_database w "Chronicle" p cf chron_props)
    (E2 : String × Workspace × Bool)
    (hE2 : E2 = ensure_database E1.2.1 "LinkChecks" p lf link_props)
    (R : Bool × Workspace) (hR : R = ensure_relation E2.2.1 E2.1 E1.1)
    (E3 : String × Workspace × Bool)
    (hE3 : E3 = ensure_database R.2 "RunLog" p rf runlog_props)
    (hv : searchResults wf = searchResults E3.2.1) :
    ensure_database wf "Chronicle" p cf2 chron_props = (E1.1, wf, false) ∧
    ensure_database wf "LinkChecks" p lf2 link_props = (E2.1, wf, false) ∧
    ∀ wmid : Workspace, searchResults wmid = searchResults wf →
      ensure_database wmid "RunLog" p rf2 runlog_props = (E3.1, wmid, false) := by
  obtain ⟨x2, hx2⟩ := ensure_view_extension E1.2.1 "LinkChecks" p lf link_props
  obtain ⟨x3, hx3⟩ := ensure_view_extension R.2 "RunLog" p rf runlog_props
  rw [← hE2] at hx2
  rw [← hE3] at hx3
  have hrel : searchResults R.2 = searchResults E2.2.1 := by
    rw [hR]
    exact searchResults_ensure_relation _ _ _
  have hchainL : searchResults wf = searchResults E2.2.1 ++ x3 := by
    rw [hv, hx3, hrel]
  have hchainC : searchResults wf = searchResults E1.2.1 ++ (x2 ++ x3) := by
    rw [hchainL, hx2, List.append_assoc]
  refine ⟨?_, ?_, ?_⟩
  · rw [hE1]
    refine ensure_stable w wf "Chronicle" p cf p cf2 chron_props chron_props (by decide)
      (x2 ++ x3) ?_
    rw [← hE1]
    exact hchainC
  · rw [hE2]
    refine ensure_stable E1.2.1 wf "LinkChecks" p lf p lf2 link_props link_props (by decide)
      x3 ?_
    rw [← hE2]
    exact hchainL
  · intro wmid hwmid
    rw [hE3]
    refine ensure_stable R.2 wmid "RunLog" p rf p rf2 runlog_props runlog_props (by decide)
      [] ?_
    rw [← hE3, List.append_nil, hwmid]
    exact hv

/-- C2: the search-or-create step reuses the id of an existing
database whose title matches exactly, and creates only when no exact
match exists: running it a second time on the resulting workspace
creates nothing, changes nothing and resolves the same id (for any
non-empty title); consequently, a second run of the whole bootstrap
tool against a workspace already holding Chronicle, LinkChecks and
RunLog creates no databases and resolves the same three ids. -/
theorem bootstrap_second_run_idempotent :
    (∀ (w : Workspace) (t p1 f1 p2 f2 : String)
      (props1 props2 : List (String × PropSchema)), t ≠ "" →
      ensure_database (ensure_database w t p1 f1 props1).2.1 t p2 f2 props2 =
        ((ensure_database w t p1 f1 props1).1,
          (ensure_database w t p1 f1 props1).2.1, false)) ∧
    (∀ (token parent : Option String) (w : Workspace) (ids1 ids2 : FreshIds)
      (sfx1 sfx2 : String), truthy token = true → truthy parent = true →
      (astra_main token parent (astra_main token parent w ids1 sfx1).workspace
        ids2 sfx2).createdTitles = [] ∧
      (astra_main token parent (astra_main token parent w ids1 sfx1).workspace
        ids2 sfx2).chron_id = (astra_main token parent w ids1 sfx1).chron_id ∧
      (astra_main token parent (astra_main token parent w ids1 sfx1).workspace
        ids2 sfx2).link_id = (astra_main token parent w ids1 sfx1).link_id ∧
      (astra_main token parent (astra_main token parent w ids1 sfx1).workspace
        ids2 sfx2).runlog_id = (astra_main token parent w ids1 sfx1).runlog_id) := by
  constructor
  · intro w t p1 f1 p2 f2 props1 props2 ht
    exact ensure_stable w (ensure_database w t p1 f1 props1).2.1 t p1 f1 p2 f2 props1 props2
      ht [] (by simp)
  · intro token parent w ids1 ids2 sfx1 sfx2 htok hpar
    obtain ⟨hc1, hl1, hr1, hct1, hv1⟩ := astra_main_fields token parent w ids1 sfx1 htok hpar
    obtain ⟨hc2, hl2, hr2, hct2, hv2⟩ := astra_main_fields token parent
      (astra_main token parent w ids1 sfx1).workspace ids2 sfx2 htok hpar
    obtain ⟨hA, hB, hC⟩ := bootstrap_pipeline_stable w
      (astra_main token parent w ids1 sfx1).workspace (parent.getD "")
      ids1.chronDb ids1.linkDb ids1.runlogDb ids2.chronDb ids2.linkDb ids2.runlogDb
      _ rfl _ rfl _ rfl _ rfl hv1
    rw [hA] at hc2 hl2 hr2 hct2
    dsimp only at hc2 hl2 hr2 hct2
    rw [hB] at hl2 hr2 hct2
    dsimp only at hl2 hr2 hct2
    have hCrel := hC (ensure_relation (astra_main token parent w ids1 sfx1).workspace
        (ensure_database
          (ensure_database w "Chronicle" (parent.getD "") ids1.chronDb chron_props).2.1
          "LinkChecks" (parent.getD "") ids1.linkDb link_props).1
        (ensure_database w "Chronicle" (parent.getD "") ids1.chronDb chron_props).1).2
      (searchResults_ensure_relation _ _ _)
    rw [hCrel] at hr2 hct2
    dsimp only at hr2 hct2
    refine ⟨?_, ?_, ?_, ?_⟩
    · rw [hct2]
      simp
    · rw [hc2, hc1]
    · rw [hl2, hl1]
    · rw [hr2, hr1]

/-- Witness for C2: a doubled ensure step and a doubled full bootstrap
run on an initially empty workspace. -/
theorem bootstrap_second_run_idempotent_witness :
    (ensure_database (ensure_database emptyWorkspace "Chronicle" "pg" "c1" chron_props).2.1
        "Chronicle" "pg" "c2" chron_props =
      ((ensure_database emptyWorkspace "Chronicle" "pg" "c1" chron_props).1,
        (ensure_database emptyWorkspace "Chronicle" "pg" "c1" chron_props).2.1, false)) ∧
    ((astra_main (some "tok") (some "page")
        (astra_main (some "tok") (some "page") emptyWorkspace freshA "aa").workspace
        freshB "bb").createdTitles = [] ∧
      (astra_main (some "tok") (some "page")
        (astra_main (some "tok") (some "page") emptyWorkspace freshA "aa").workspace
        freshB "bb").chron_id =
        (astra_main (some "tok") (some "page") emptyWorkspace freshA "aa").chron_id ∧
      (astra_main (some "tok") (some "page")
        (astra_main (some "tok") (some "page") emptyWorkspace freshA "aa").workspace
        freshB "bb").link_id =
        (astra_main (some "tok") (some "page") emptyWorkspace freshA "aa").link_id ∧
      (astra_main (some "tok") (some "page")
        (astra_main (some "tok") (some "page") emptyWorkspace freshA "aa").workspace
        freshB "bb").runlog_id =
        (astra_main (some "tok") (some "page") emptyWorkspace freshA "aa").runlog_id) :=
  ⟨bootstrap_second_run_idempotent.1 emptyWorkspace "Chronicle" "pg" "c1" "pg" "c2"
      chron_props chron_props (by decide),
    bootstrap_second_run_idempotent.2 (some "tok") (some "page") emptyWorkspace freshA freshB
      "aa" "bb" (by decide) (by decide)⟩

/-- C5: when the fetched LinkChecks schema already contains a property
named "Chronicle", the relation-ensuring step issues no PATCH request
and leaves the workspace — and hence every schema — unmodified. -/
theorem relation_patch_skipped_when_present (w : Workspace) (link_id chron_id : String)
    (h : "Chronicle" ∈ (getSchema w link_id).map Prod.fst) :
    ensure_relation w link_id chron_id = (false, w) := by
  unfold ensure_relation
  dsimp only
  have hc : ((getSchema w link_id).map Prod.fst).contains "Chronicle" = true :=
    List.elem_eq_true_of_mem h
  rw [hc]
  rfl

/-- Witness for C5: a workspace whose LinkChecks schema already has
the property. -/
theorem relation_patch_skipped_when_present_witness :
    ensure_relation linkedWorkspace "db-link" "db-chron" = (false, linkedWorkspace) :=
  relation_patch_skipped_when_present linkedWorkspace "db-link" "db-chron" (by decide)

end AstraInit

namespace QuietValidator

lemma validator_main_exit (token link_db radar_db project_db aff : Option String)
    (probe : ProbeOutcome) :
    (validator_main token link_db radar_db project_db aff probe).exit = 0 := by
  unfold validator_main
  dsimp only
  split
  · rfl
  · cases probe with
    | resp st body =>
      dsimp only
      split <;> rfl
    | exn => rfl

lemma workflow_validator_main_exit (token link_db aff : Option String)
    (probe : ProbeOutcome) :
    (workflow_validator_main token link_db aff probe).exit = 0 := by
  unfold workflow_validator_main
  dsimp only
  split
  · rfl
  · cases probe with
    | resp st body =>
      dsimp only
      split <;> rfl
    | exn => rfl

lemma validator_main_not_configured (token link_db radar_db project_db aff : Option String)
    (probe : ProbeOutcome) (hg : truthy token = false ∨ truthy link_db = false) :
    validator_main token link_db radar_db project_db aff probe =
      { exit := 0,
        output := [.banner, .secretsPresent (truthy token) (truthy link_db),
          .radarPresent (truthy radar_db) (truthy project_db),
          .affTag (aff.getD "abinom55-20"), .notConfigured],
        requests := 0 } := by
  have hcond : (!truthy token || !truthy link_db) = true := by
    rcases hg with h | h <;> simp [h]
  unfold validator_main
  dsimp only
  rw [hcond]
  rfl

lemma workflow_validator_main_not_configured (token link_db aff : Option String)
    (probe : ProbeOutcome) (hg : truthy token = false ∨ truthy link_db = false) :
    workflow_validator_main token link_db aff probe =
      { exit := 0,
        output := [.banner, .secretsPresent (truthy token) (truthy link_db),
          .affTag (aff.getD "abinom55-20"), .notConfigured],
        requests := 0 } := by
  have hcond : (!truthy token || !truthy link_db) = true := by
    rcases hg with h | h <;> simp [h]
  unfold workflow_validator_main
  dsimp only
  rw [hcond]
  rfl

lemma validator_main_configured_requests (token link_db radar_db project_db aff : Option String)
    (probe : ProbeOutcome) (ht : truthy token = true) (hl : truthy link_db = true) :
    (validator_main token link_db radar_db project_db aff probe).requests = 1 := by
  have hcond : (!truthy token || !truthy link_db) = false := by rw [ht, hl]; rfl
  unfold validator_main
  dsimp only
  rw [hcond, if_neg Bool.false_ne_true]
  cases probe with
  | resp st body =>
    dsimp only
    split <;> rfl
  | exn => rfl

lemma workflow_validator_main_configured_requests (token link_db aff : Option String)
    (probe : ProbeOutcome) (ht : truthy token = true) (hl : truthy link_db = true) :
    (workflow_validator_main token link_db aff probe).requests = 1 := by
  have hcond : (!truthy token || !truthy link_db) = false := by rw [ht, hl]; rfl
  unfold workflow_validator_main
  dsimp only
  rw [hcond, if_neg Bool.false_ne_true]
  cases probe with
  | resp st body =>
    dsimp only
    split <;> rfl
  | exn => rfl

/-- C3: both dry-run validators always exit 0: with `NOTION_TOKEN` or
`LINKCHECK_DB_ID` missing they print the not-configured message, issue
no request and exit 0, and with both present they issue exactly one
read query and exit 0 whatever status it returns or exception it
raises. -/
theorem validator_always_exits_zero :
    (∀ (token link_db radar_db project_db aff : Option String) (probe : ProbeOutcome),
      (validator_main token link_db radar_db project_db aff probe).exit = 0 ∧
      (workflow_validator_main token link_db aff probe).exit = 0) ∧
    (∀ (token link_db radar_db project_db aff : Option String) (probe : ProbeOutcome),
      truthy token = false ∨ truthy link_db = false →
      VLine.notConfigured ∈ (validator_main token link_db radar_db project_db aff probe).output ∧
      (validator_main token link_db radar_db project_db aff probe).requests = 0 ∧
      VLine.notConfigured ∈ (workflow_validator_main token link_db aff probe).output ∧
      (workflow_validator_main token link_db aff probe).requests = 0) ∧
    (∀ (token link_db radar_db project_db aff : Option String) (probe : ProbeOutcome),
      truthy token = true → truthy link_db = true →
      (validator_main token link_db radar_db project_db aff probe).requests = 1 ∧
      (workflow_validator_main token link_db aff probe).requests = 1) := by
  refine ⟨?_, ?_, ?_⟩
  · intro token link_db radar_db project_db aff probe
    exact ⟨validator_main_exit token link_db radar_db project_db aff probe,
      workflow_validator_main_exit token link_db aff probe⟩
  · intro token link_db radar_db project_db aff probe hg
    rw [validator_main_not_configured token link_db radar_db project_db aff probe hg,
      workflow_validator_main_not_configured token link_db aff probe hg]
    refine ⟨by simp, rfl, by simp, rfl⟩
  · intro token link_db radar_db project_db aff probe ht hl
    exact ⟨validator_main_configured_requests token link_db radar_db project_db aff probe ht hl,
      workflow_validator_main_configured_requests token link_db aff probe ht hl⟩

/-- Witness for C3: an unconfigured run (everything unset, raising
probe) and a configured run with a 503 probe response. -/
theorem validator_always_exits_zero_witness :
    ((validator_main none none none none none .exn).exit = 0 ∧
     (workflow_validator_main none none none .exn).exit = 0) ∧
    (VLine.notConfigured ∈ (validator_main none none none none none .exn).output ∧
     (validator_main none none none none none .exn).requests = 0 ∧
     VLine.notConfigured ∈ (workflow_validator_main none none none .exn).output ∧
     (workflow_validator_main none none none .exn).requests = 0) ∧
    ((validator_main (some "t") (some "db") none none none (.resp 503 "busy")).requests = 1 ∧
     (workflow_validator_main (some "t") (some "db") none (.resp 503 "busy")).requests = 1) :=
  ⟨validator_always_exits_zero.1 none none none none none .exn,
    validator_always_exits_zero.2.1 none none none none none .exn (Or.inl rfl),
    validator_always_exits_zero.2.2 (some "t") (some "db") none none none (.resp 503 "busy")
      (by decide) (by decide)⟩

end QuietValidator

namespace Upsert

lemma uploadLoop_all_ok (w : World) (repo : String) (hput : ∀ n, w.putOk n = true) :
    ∀ secrets : List (String × String),
      (uploadLoop w repo secrets).trace =
        secrets.map (fun s => GhReq.putSecret repo s.1 (w.sealedBox w.publicKey s.2) w.key_id) ∧
      (uploadLoop w repo secrets).ok = true := by
  intro secrets
  induction secrets with
  | nil => exact ⟨rfl, rfl⟩
  | cons s rest ih =>
    obtain ⟨n, v⟩ := s
    constructor <;> simp [uploadLoop, hput n, ih.1, ih.2]

lemma verifyLoop_trace (w : World) (repo : String) :
    ∀ secrets : List (String × String),
      (verifyLoop w repo secrets).trace = secrets.map (fun s => GhReq.getSecret repo s.1) := by
  intro secrets
  induction secrets with
  | nil => rfl
  | cons s rest ih =>
    obtain ⟨n, v⟩ := s
    cases h : (w.verifyStatus n == 200) <;> simp [verifyLoop, h, ih]

lemma verifyLoop_allOk (w : World) (repo : String) :
    ∀ secrets : List (String × String),
      (verifyLoop w repo secrets).allOk = allVerified w secrets := by
  intro secrets
  induction secrets with
  | nil => rfl
  | cons s rest ih =>
    obtain ⟨n, v⟩ := s
    cases h : (w.verifyStatus n == 200) <;> simp [verifyLoop, h, ih, allVerified]

lemma main_trace_exit (e : Env) (w : World)
    (htok : truthy e.github_token = true) (hne : secretsToUpsert e ≠ [])
    (hkey : w.keyOk = true) (hput : ∀ n, w.putOk n = true) :
    (main e w).trace =
      GhReq.getPublicKey (repoOf e) ::
        ((secretsToUpsert e).map
          (fun s => GhReq.putSecret (repoOf e) s.1 (w.sealedBox w.publicKey s.2) w.key_id) ++
         ((secretsToUpsert e).map (fun s => GhReq.getSecret (repoOf e) s.1) ++
          (if allVerified w (secretsToUpsert e) && !truthy e.no_dispatch
           then [GhReq.dispatch (repoOf e) WORKFLOW_ID (e.workflow_ref.getD "main")]
           else []))) ∧
    (allVerified w (secretsToUpsert e) = false → (main e w).exit = 1) := by
  have hu := uploadLoop_all_ok w (repoOf e) hput (secretsToUpsert e)
  have hvt := verifyLoop_trace w (repoOf e) (secretsToUpsert e)
  have hva := verifyLoop_allOk w (repoOf e) (secretsToUpsert e)
  have h1 : (!truthy e.github_token) = false := by rw [htok]; rfl
  have h2 : (secretsToUpsert e).isEmpty = false := by
    cases hs : secretsToUpsert e with
    | nil => exact absurd hs hne
    | cons a l => rfl
  have h3 : (!w.keyOk) = false := by rw [hkey]; rfl
  unfold main
  dsimp only
  rw [h1, if_neg Bool.false_ne_true, h2, if_neg Bool.false_ne_true, h3,
    if_neg Bool.false_ne_true, hu.2]
  rw [show (!true) = false from rfl, if_neg Bool.false_ne_true, hva]
  cases hall : allVerified w (secretsToUpsert e) with
  | false =>
    rw [show (!false) = true from rfl, if_pos rfl]
    refine ⟨?_, fun _ => rfl⟩
    rw [hu.1, hvt]
    simp
  | true =>
    rw [show (!true) = false from rfl, if_neg Bool.false_ne_true]
    cases hnd : truthy e.no_dispatch with
    | true =>
      rw [if_pos rfl]
      refine ⟨?_, fun hc => Bool.noConfusion hc⟩
      rw [hu.1, hvt]
      simp
    | false =>
      rw [if_neg Bool.false_ne_true]
      cases hdo : w.dispatchOk with
      | true =>
        rw [if_pos rfl]
        refine ⟨?_, fun hc => Bool.noConfusion hc⟩
        rw [hu.1, hvt]
        simp
      | false =>
        rw [if_neg Bool.false_ne_true]
        refine ⟨?_, fun hc => Bool.noConfusion hc⟩
        rw [hu.1, hvt]
        simp

/-- Counterexample to C7 as stated: with two present secrets the tool
fetches the repository public key once, not once per present secret
(the fetch happens before the per-secret loop). -/
theorem public_key_fetched_once_counterexample :
    (secretsToUpsert twoSecretsEnv).length = 2 ∧
    (main twoSecretsEnv allOkWorld).trace.count (GhReq.getPublicKey DEFAULT_REPO) = 1 ∧
    ¬ (main twoSecretsEnv allOkWorld).trace.count (GhReq.getPublicKey DEFAULT_REPO) =
        (secretsToUpsert twoSecretsEnv).length := by
  refine ⟨by decide, by decide, by decide⟩

/-- C7 as amended: the tool fetches the remote public key once (with
its key id), encrypts each present secret with that key and uploads
it, then verifies every present secret by a GET — attempting every
verification even when some fail — and exits 1 (dispatching nothing)
when one or more verifications fail. -/
theorem upload_pipeline_verifies_all_secrets (e : Env) (w : World)
    (htok : truthy e.github_token = true) (hne : secretsToUpsert e ≠ [])
    (hkey : w.keyOk = true) (hput : ∀ n, w.putOk n = true) :
    ∃ tail,
      (main e w).trace =
        GhReq.getPublicKey (repoOf e) ::
          ((secretsToUpsert e).map
            (fun s => GhReq.putSecret (repoOf e) s.1 (w.sealedBox w.publicKey s.2) w.key_id) ++
           ((secretsToUpsert e).map (fun s => GhReq.getSecret (repoOf e) s.1) ++ tail)) ∧
      (allVerified w (secretsToUpsert e) = false → (main e w).exit = 1 ∧ tail = []) := by
  obtain ⟨htr, hex⟩ := main_trace_exit e w htok hne hkey hput
  refine ⟨if allVerified w (secretsToUpsert e) && !truthy e.no_dispatch
      then [GhReq.dispatch (repoOf e) WORKFLOW_ID (e.workflow_ref.getD "main")] else [],
    htr, ?_⟩
  intro hfail
  refine ⟨hex hfail, ?_⟩
  rw [hfail]
  rfl

/-- Witness for C7 (amended), at an environment with two secrets and a
remote side failing one verification. -/
theorem upload_pipeline_verifies_all_secrets_witness :
    ∃ tail,
      (main dispatchEnv oneVerifyFailsWorld).trace =
        GhReq.getPublicKey (repoOf dispatchEnv) ::
          ((secretsToUpsert dispatchEnv).map
            (fun s => GhReq.putSecret (repoOf dispatchEnv) s.1
              (oneVerifyFailsWorld.sealedBox oneVerifyFailsWorld.publicKey s.2)
              oneVerifyFailsWorld.key_id) ++
           ((secretsToUpsert dispatchEnv).map
             (fun s => GhReq.getSecret (repoOf dispatchEnv) s.1) ++ tail)) ∧
      (allVerified oneVerifyFailsWorld (secretsToUpsert dispatchEnv) = false →
        (main dispatchEnv oneVerifyFailsWorld).exit = 1 ∧ tail = []) :=
  upload_pipeline_verifies_all_secrets dispatchEnv oneVerifyFailsWorld (by decide) (by decide)
    rfl (fun _ => rfl)

/-- C8: the upload tool fails fast on missing configuration: with no
(truthy) `GITHUB_TOKEN` it reports the error on stderr and exits 1,
and with a token but none of the four recognized secret variables set
it prints the expected variable names and exits 1 — in both cases
issuing no outbound request. -/
theorem missing_config_exits_one (e : Env) (w : World) :
    (truthy e.github_token = false →
      (main e w).exit = 1 ∧ (main e w).stderr = [UpLine.errMissingToken] ∧
      (main e w).trace = []) ∧
    (truthy e.github_token = true → e.notion_token = none → e.linkcheck_db_id = none →
      e.radar_db_id = none → e.project_tracker_db_id = none →
      (main e w).exit = 1 ∧ UpLine.expectedNames SECRET_NAMES ∈ (main e w).stdout ∧
      (main e w).trace = []) := by
  constructor
  · intro h
    have hmain : main e w =
        { exit := 1, trace := [], stdout := [], stderr := [.errMissingToken] } := by
      unfold main
      rw [h]
      rfl
    rw [hmain]
    exact ⟨rfl, rfl, rfl⟩
  · intro htok h1 h2 h3 h4
    have hsec : secretsToUpsert e = [] := by
      unfold secretsToUpsert
      rw [h1, h2, h3, h4]
      rfl
    have hmain : main e w =
        { exit := 1, trace := [], stdout := [.expectedNames SECRET_NAMES],
          stderr := [.warnNoSecrets] } := by
      unfold main
      dsimp only
      rw [show (!truthy e.github_token) = false from by rw [htok]; rfl,
        if_neg Bool.false_ne_true, hsec]
      rfl
    rw [hmain]
    exact ⟨rfl, by simp, rfl⟩

/-- Witness for C8: a run without `GITHUB_TOKEN`, and a run with a
token but no recognized secret. -/
theorem missing_config_exits_one_witness :
    ((main noTokenEnv allOkWorld).exit = 1 ∧
     (main noTokenEnv allOkWorld).stderr = [UpLine.errMissingToken] ∧
     (main noTokenEnv allOkWorld).trace = []) ∧
    ((main noSecretsEnv allOkWorld).exit = 1 ∧
     UpLine.expectedNames SECRET_NAMES ∈ (main noSecretsEnv allOkWorld).stdout ∧
     (main noSecretsEnv allOkWorld).trace = []) :=
  ⟨(missing_config_exits_one noTokenEnv allOkWorld).1 rfl,
    (missing_config_exits_one noSecretsEnv allOkWorld).2 rfl rfl rfl rfl rfl⟩

/-- C10: the workflow dispatch happens only after every secret has
been verified — no dispatch request is ever issued when a verification
failed — and, with all secrets verified, it is skipped exactly when
`NO_DISPATCH` is set to a non-empty string; otherwise the workflow is
dispatched last, on the ref given by `WORKFLOW_REF` with default
"main". -/
theorem dispatch_after_verification_gated_by_no_dispatch (e : Env) (w : World)
    (htok : truthy e.github_token = true) (hne : secretsToUpsert e ≠ [])
    (hkey : w.keyOk = true) (hput : ∀ n, w.putOk n = true) :
    (allVerified w (secretsToUpsert e) = false →
      ∀ repo wf ref, GhReq.dispatch repo wf ref ∉ (main e w).trace) ∧
    (allVerified w (secretsToUpsert e) = true →
      (truthy e.no_dispatch = true →
        ∀ repo wf ref, GhReq.dispatch repo wf ref ∉ (main e w).trace) ∧
      (truthy e.no_dispatch = false →
        (main e w).trace =
          GhReq.getPublicKey (repoOf e) ::
            ((secretsToUpsert e).map
              (fun s => GhReq.putSecret (repoOf e) s.1 (w.sealedBox w.publicKey s.2) w.key_id) ++
             ((secretsToUpsert e).map (fun s => GhReq.getSecret (repoOf e) s.1) ++
              [GhReq.dispatch (repoOf e) WORKFLOW_ID (e.workflow_ref.getD "main")])))) := by
  obtain ⟨htr, _⟩ := main_trace_exit e w htok hne hkey hput
  constructor
  · intro hfail repo wf ref
    rw [htr, hfail]
    simp
  · intro hok
    constructor
    · intro hnd repo wf ref
      rw [htr, hok, hnd]
      simp
    · intro hnd
      rw [htr, hok, hnd]
      rfl

/-- Witness for C10: with all verifications succeeding and
`NO_DISPATCH` unset, the run dispatches the workflow on "main" as its
last request; with `NO_DISPATCH = "1"` it does not dispatch. -/
theorem dispatch_after_verification_gated_by_no_dispatch_witness :
    ((main dispatchEnv allOkWorld).trace =
      GhReq.getPublicKey (repoOf dispatchEnv) ::
        ((secretsToUpsert dispatchEnv).map
          (fun s => GhReq.putSecret (repoOf dispatchEnv) s.1
            (allOkWorld.sealedBox allOkWorld.publicKey s.2) allOkWorld.key_id) ++
         ((secretsToUpsert dispatchEnv).map
           (fun s => GhReq.getSecret (repoOf dispatchEnv) s.1) ++
          [GhReq.dispatch (repoOf dispatchEnv) WORKFLOW_ID
            (dispatchEnv.workflow_ref.getD "main")]))) ∧
    (∀ repo wf ref, GhReq.dispatch repo wf ref ∉ (main twoSecretsEnv allOkWorld).trace) :=
  ⟨((dispatch_after_verification_gated_by_no_dispatch dispatchEnv allOkWorld (by decide)
      (by decide) rfl (fun _ => rfl)).2 (by decide)).2 rfl,
    ((dispatch_after_verification_gated_by_no_dispatch twoSecretsEnv allOkWorld (by decide)
      (by decide) rfl (fun _ => rfl)).2 (by decide)).1 rfl⟩

end Upsert

/-- C9: a required credential set to the empty string is treated
exactly like an absent one at every entry point: such a value is falsy,
so the validator prints the not-configured message and exits 0 (for
either of its two required variables), the bootstrap tool exits 2 (for
either of its two required variables), and the upload tool exits 1
when `GITHUB_TOKEN` is unset or empty. -/
theorem empty_credential_treated_as_absent (v : Option String)
    (hv : v = none ∨ v = some "") :
    truthy v = false ∧
    (∀ (link_db radar_db project_db aff : Option String)
      (probe : QuietValidator.ProbeOutcome),
      (QuietValidator.validator_main v link_db radar_db project_db aff probe).exit = 0 ∧
      QuietValidator.VLine.notConfigured ∈
        (QuietValidator.validator_main v link_db radar_db project_db aff probe).output) ∧
    (∀ (token radar_db project_db aff : Option String)
      (probe : QuietValidator.ProbeOutcome),
      (QuietValidator.validator_main token v radar_db project_db aff probe).exit = 0 ∧
      QuietValidator.VLine.notConfigured ∈
        (QuietValidator.validator_main token v radar_db project_db aff probe).output) ∧
    (∀ (parent : Option String) (w : AstraInit.Workspace) (ids : AstraInit.FreshIds)
      (sfx : String), (AstraInit.astra_main v parent w ids sfx).exit = 2) ∧
    (∀ (token : Option String) (w : AstraInit.Workspace) (ids : AstraInit.FreshIds)
      (sfx : String), (AstraInit.astra_main token v w ids sfx).exit = 2) ∧
    (∀ (e : Upsert.Env) (wo : Upsert.World), e.github_token = v →
      (Upsert.main e wo).exit = 1) := by
  have htv : truthy v = false := by
    rcases hv with h | h <;> rw [h] <;> rfl
  refine ⟨htv, ?_, ?_, ?_, ?_, ?_⟩
  · intro link_db radar_db project_db aff probe
    rw [QuietValidator.validator_main_not_configured v link_db radar_db project_db aff probe
      (Or.inl htv)]
    exact ⟨rfl, by simp⟩
  · intro token radar_db project_db aff probe
    rw [QuietValidator.validator_main_not_configured token v radar_db project_db aff probe
      (Or.inr htv)]
    exact ⟨rfl, by simp⟩
  · intro parent w ids sfx
    unfold AstraInit.astra_main
    rw [htv]
    rfl
  · intro token w ids sfx
    unfold AstraInit.astra_main
    rw [htv]
    cases truthy token <;> rfl
  · intro e wo he
    unfold Upsert.main
    rw [he, htv]
    rfl

/-- Witness for C9: the empty string at each of the three entry
points. -/
theorem empty_credential_treated_as_absent_witness :
    truthy (some "") = false ∧
    (QuietValidator.validator_main (some "") (some "db") none none none .exn).exit = 0 ∧
    (AstraInit.astra_main (some "") (some "page") AstraInit.emptyWorkspace AstraInit.freshA
      "aa").exit = 2 ∧
    (Upsert.main Upsert.emptyTokenEnv Upsert.allOkWorld).exit = 1 := by
  have h := empty_credential_treated_as_absent (some "") (Or.inr rfl)
  exact ⟨h.1, (h.2.1 (some "db") none none none .exn).1,
    h.2.2.2.1 (some "page") AstraInit.emptyWorkspace AstraInit.freshA "aa",
    h.2.2.2.2.2 Upsert.emptyTokenEnv Upsert.allOkWorld rfl⟩
